import Mathlib

/-!
# Verification of the `DataCrawler` component (src/crawler/crawler.py)

A shallow embedding of the lifecycle control (`start`/`stop`) of the
crawler, its single-URL fetch (`crawl_url`), its bounded concurrent batch
fetch (`batch_crawl`), and the periodic-task wrapper
(`_create_periodic_task`), together with theorems settling the claims of
the specification about them.

Stateful Python code is embedded as explicit state-passing functions over a
`CrawlerState` record; the unbounded `while` loop of the periodic wrapper is
observed through a fuel parameter; the concurrency of `batch_crawl` is
embedded as a small-step transition system over a semaphore-guarded state.
-/

set_option autoImplicit false

namespace DataCrawler

/-- Resource-release calls performed by `stop` (observable effects on the
externally owned session and storage engine).  `closeSession` models
`await self.session.close()`; `disposeEngine` models
`await self.engine.dispose()` inside `Database.close`. -/
inductive ReleaseAction where
  | closeSession : ReleaseAction
  | disposeEngine : ReleaseAction
deriving DecidableEq, Repr

/-- The mutable state of a `DataCrawler` object together with its `Database`.

* `enabled` — `self.settings.crawler.enabled` (read-only configuration);
* `running` — `self.running`;
* `session` — `self.session : Optional[ClientSession]`, modelled as an
  optional handle id; `nextSession` supplies fresh ids for
  `aiohttp.ClientSession(...)` construction;
* `dbInitialized` — `Database._initialized`;
* `dbEngine` — `Database.engine` (non-null once created; `Database.close`
  disposes it but never resets the attribute);
* `tasks` — `self.tasks`, one `Bool` per task recording whether it has
  finished (`task.done()`);
* `releases` — the sequence of resource-release calls issued so far. -/
structure CrawlerState where
  enabled : Bool
  running : Bool
  session : Option Nat
  nextSession : Nat
  dbInitialized : Bool
  dbEngine : Option Unit
  tasks : List Bool
  releases : List ReleaseAction
deriving DecidableEq, Repr

/-- A freshly constructed crawler (`DataCrawler.__init__` plus
`Database.__init__`): not running, no session, database not initialized,
no tasks. -/
def initState (enabled : Bool) : CrawlerState :=
  { enabled := enabled
    running := false
    session := none
    nextSession := 0
    dbInitialized := false
    dbEngine := none
    tasks := []
    releases := [] }

/-- `Database.initialize` (src/database/database.py): returns immediately if
`self._initialized`; otherwise creates the async engine and marks the
database initialized.  (The success path is modelled; on failure the Python
code re-raises and never sets `_initialized`.) -/
def databaseInitialize (s : CrawlerState) : CrawlerState :=
  if s.dbInitialized then s
  else { s with dbEngine := some (), dbInitialized := true }

/-- `Database.close`: disposes the engine when one exists; it neither clears
`self.engine` nor resets `self._initialized`. -/
def databaseClose (s : CrawlerState) : CrawlerState :=
  if s.dbEngine.isSome then { s with releases := s.releases ++ [.disposeEngine] }
  else s

/-- `DataCrawler._start_crawler_tasks`: appends exactly three periodic tasks
to `self.tasks` (example API, RSS feeds, daily cleanup), all initially not
done. -/
def startCrawlerTasks (s : CrawlerState) : CrawlerState :=
  { s with tasks := s.tasks ++ [false, false, false] }

/-- `DataCrawler.start`: if the crawler is disabled, return immediately;
otherwise set `running := True`, construct a fresh HTTP session (replacing
any previous handle), initialize the database, and start the crawler
tasks.  There is no check of `self.running`. -/
def start (s : CrawlerState) : CrawlerState :=
  if !s.enabled then s
  else
    startCrawlerTasks
      (databaseInitialize
        { s with
            running := true
            session := some s.nextSession
            nextSession := s.nextSession + 1 })

/-- `DataCrawler.stop`: set `running := False`, cancel and await all tasks
(every task ends done), close the HTTP session if one exists (the attribute
is not cleared), and close the database.  There is no check of
`self.running`. -/
def stop (s : CrawlerState) : CrawlerState :=
  let s₁ := { s with running := false, tasks := s.tasks.map (fun _ => true) }
  let s₂ :=
    if s₁.session.isSome then { s₁ with releases := s₁.releases ++ [.closeSession] }
    else s₁
  databaseClose s₂

/-- The states reachable from a freshly constructed crawler by any sequence
of `start()` and `stop()` calls. -/
inductive Reachable : CrawlerState → Prop where
  | init (enabled : Bool) : Reachable (initState enabled)
  | start {s : CrawlerState} : Reachable s → Reachable (start s)
  | stop {s : CrawlerState} : Reachable s → Reachable (stop s)

/-! ## Single-URL fetch: `DataCrawler.crawl_url` -/

/-- A JSON value, as produced by `response.json()`. -/
inductive Json where
  | obj (fields : List (String × Json))
  | arr (elems : List Json)
  | str (s : String)
  | num (n : Int)
  | bool (b : Bool)
  | null

/-- An HTTP response as observed by `crawl_url`: the status code, the value
of the content-type header (empty string when absent), the result of
JSON-parsing the body (`none` when the body is malformed JSON, in which
case `response.json()` raises), and the body text. -/
structure HttpResponse where
  status : Nat
  contentType : String
  jsonBody : Option Json
  textBody : String

/-- The outcome of the underlying network request issued by
`self.session.get(url)`: either a response arrives, or the request fails
with a timeout or a connection error. -/
inductive NetEvent where
  | response (r : HttpResponse)
  | timeout
  | connectionError

/-- The exceptions that can be raised inside the `try` block of
`crawl_url`: request timeout, connection failure, and JSON decoding errors
on a malformed body. -/
inductive CrawlErr where
  | timeout
  | connectionError
  | jsonDecode
deriving DecidableEq, Repr

/-- A Python value returned by `crawl_url`: either the parsed JSON body, or
the dict `\x7b'content': text, 'url': url, 'status': status\x7d` built for
non-JSON content. -/
inductive PyValue where
  | fromJson (j : Json)
  | contentDict (content : String) (url : String) (status : Nat)

/-- `isinstance(result, dict)`: a parsed JSON body is a Python dict exactly
when it is a JSON object; the content/url/status triple is always a dict. -/
def PyValue.isDict : PyValue → Bool
  | .fromJson (Json.obj _) => true
  | .fromJson _ => false
  | .contentDict _ _ _ => true

/-- Does the second list of characters occur at the head of the first? -/
def listBeginsWith : List Char → List Char → Bool
  | _, [] => true
  | [], _ :: _ => false
  | c :: cs, d :: ds => c == d && listBeginsWith cs ds

/-- The substring test `needle in hay`: some tail of the haystack begins
with the needle. -/
def listContains : List Char → List Char → Bool
  | [], needle => needle.isEmpty
  | c :: tl, needle => listBeginsWith (c :: tl) needle || listContains tl needle

/-- The test `'application/json' in content_type.lower()` performed by
`crawl_url` on the declared content type. -/
def declaresJson (contentType : String) : Bool :=
  listContains (contentType.toList.map Char.toLower) ("application/json".toList)

/-- The body of the `try` block of `crawl_url`: raises on network failure
and on JSON decoding failure; otherwise, for status exactly 200, decodes by
declared content type; for any other status logs a warning and returns
`None`. -/
def crawlUrlBody (url : String) (ev : NetEvent) : Except CrawlErr (Option PyValue) :=
  match ev with
  | .timeout => .error .timeout
  | .connectionError => .error .connectionError
  | .response r =>
    if r.status == 200 then
      if declaresJson r.contentType then
        match r.jsonBody with
        | some j => .ok (some (.fromJson j))
        | none => .error .jsonDecode
      else .ok (some (.contentDict r.textBody url r.status))
    else .ok none

/-- `crawl_url` with its `except Exception` handler made explicit in the
type: any exception raised by the body is caught, logged, and turned into
the return value `None`, so the function never propagates an error. -/
def crawlUrlGuarded (url : String) (ev : NetEvent) : Except CrawlErr (Option PyValue) :=
  match crawlUrlBody url ev with
  | .ok r => .ok r
  | .error _ => .ok none

/-- `DataCrawler.crawl_url`: the value actually returned to the caller. -/
def crawl_url (url : String) (ev : NetEvent) : Option PyValue :=
  match crawlUrlGuarded url ev with
  | .ok r => r
  | .error _ => none

/-! ## Batch fetch: `DataCrawler.batch_crawl` (result construction) -/

/-- `DataCrawler.batch_crawl`, parametrized by the behavior `net` of the
network on each URL: every URL is fetched through `crawl_url` (under the
semaphore, which does not affect the value returned), `asyncio.gather`
collects the per-task results in input order, and the final loop keeps
only the results that are Python dicts, dropping `None` results and
exceptions. -/
def batch_crawl (net : String → NetEvent) (urls : List String) : List PyValue :=
  let results := urls.map (fun u => crawl_url u (net u))
  results.filterMap (fun r =>
    match r with
    | some p => if p.isDict then some p else none
    | none => none)

/-! ## Periodic task wrapper: `DataCrawler._create_periodic_task` -/

/-- Observable events of one periodic wrapper task: an invocation of the
job body (numbered by cycle), the logging of an error raised by the body,
and the `asyncio.sleep(interval)` between cycles. -/
inductive SchedEvent where
  | invoke (k : Nat)
  | bodyError (k : Nat)
  | sleep (interval : Nat)
deriving DecidableEq, Repr

/-- The event trace of `periodic_wrapper` observed for `fuel` iterations of
its `while self.running` loop, starting at cycle `k`: while running, invoke
the body, catch and log any error it raises, then sleep for the interval
and repeat. -/
def periodicTrace (running : Nat → Bool) (body : Nat → Except String Unit)
    (interval : Nat) : Nat → Nat → List SchedEvent
  | _, 0 => []
  | k, fuel + 1 =>
    if running k then
      (SchedEvent.invoke k ::
        (match body k with
         | .ok _ => []
         | .error _ => [SchedEvent.bodyError k]))
      ++ [SchedEvent.sleep interval]
      ++ periodicTrace running body interval (k + 1) fuel
    else []

/-- Number of body invocations in a trace. -/
def invokeCount (tr : List SchedEvent) : Nat :=
  tr.countP (fun e => match e with | .invoke _ => true | _ => false)

/-- Number of sleeps in a trace. -/
def sleepCount (tr : List SchedEvent) : Nat :=
  tr.countP (fun e => match e with | .sleep _ => true | _ => false)

/-! ## Batch fetch: the counting semaphore of `batch_crawl` -/

/-- Instantaneous state of one `batch_crawl` call: how many URL tasks have
not yet entered the `async with semaphore` block, how many fetches are in
flight (inside the block), the current counter of the semaphore, and how
many tasks have completed. -/
structure BatchState where
  pending : Nat
  inflight : Nat
  permits : Nat
  completed : Nat
deriving DecidableEq, Repr

/-- The state at the start of `batch_crawl(urls, k)` with `n` URLs: all
tasks pending, none in flight, the semaphore initialized to `k`. -/
def batchInit (k n : Nat) : BatchState :=
  { pending := n, inflight := 0, permits := k, completed := 0 }

/-- One scheduler step inside `batch_crawl`: a pending task may acquire the
semaphore only when its counter is positive, moving the task in flight and
decrementing the counter; a task in flight may finish its fetch, leaving
the block and releasing the counter. -/
inductive BatchStep : BatchState → BatchState → Prop where
  | acquire (p i c d : Nat) :
      BatchStep ⟨p + 1, i, c + 1, d⟩ ⟨p, i + 1, c, d⟩
  | release (p i c d : Nat) :
      BatchStep ⟨p, i + 1, c, d⟩ ⟨p, i, c + 1, d + 1⟩

/-- States reachable during one `batch_crawl(urls, k)` call with `n` URLs,
under any interleaving of its tasks. -/
inductive BatchReachable (k n : Nat) : BatchState → Prop where
  | init : BatchReachable k n (batchInit k n)
  | step {s t : BatchState} :
      BatchReachable k n s → BatchStep s t → BatchReachable k n t

/-! ## Helper lemmas -/

/-- When the crawler is enabled, one `start` call sets `running`, installs a
fresh session handle, initializes the database, and appends three tasks. -/
theorem start_enabled_eq (s : CrawlerState) (h : s.enabled = true) :
    start s =
      { s with
          running := true
          session := some s.nextSession
          nextSession := s.nextSession + 1
          dbInitialized := true
          dbEngine := if s.dbInitialized then s.dbEngine else some ()
          tasks := s.tasks ++ [false, false, false] } := by
  by_cases hd : s.dbInitialized <;>
    simp [start, h, startCrawlerTasks, databaseInitialize, hd]

/-- When the crawler is disabled, `start` is the identity. -/
theorem start_disabled_eq (s : CrawlerState) (h : s.enabled = false) :
    start s = s := by
  simp [start, h]

/-- Field-by-field description of one `stop` call: `running` is cleared,
all tasks end done, the session and engine attributes are untouched, and a
close call is issued for each handle that is held. -/
theorem stop_fields (s : CrawlerState) :
    (stop s).enabled = s.enabled ∧
    (stop s).running = false ∧
    (stop s).session = s.session ∧
    (stop s).nextSession = s.nextSession ∧
    (stop s).dbInitialized = s.dbInitialized ∧
    (stop s).dbEngine = s.dbEngine ∧
    (stop s).tasks = s.tasks.map (fun _ => true) ∧
    (stop s).releases = s.releases ++
      (if s.session.isSome then [ReleaseAction.closeSession] else []) ++
      (if s.dbEngine.isSome then [ReleaseAction.disposeEngine] else []) := by
  by_cases hs : s.session.isSome <;> by_cases he : s.dbEngine.isSome <;>
    simp [stop, databaseClose, hs, he]

/-- Invariant of the reachable lifecycle states: an initialized database has
an engine, and a running crawler holds both a session and an engine. -/
theorem reachable_handles_aux {s : CrawlerState} (h : Reachable s) :
    (s.dbInitialized = true → s.dbEngine.isSome = true) ∧
    (s.running = true → s.session.isSome = true ∧ s.dbEngine.isSome = true) := by
  induction h with
  | init e => simp [initState]
  | @start s hr ih =>
    by_cases he : s.enabled = true
    · rw [start_enabled_eq s he]
      by_cases hd : s.dbInitialized = true
      · simpa [hd] using ih.1 hd
      · simp [hd]
    · rw [start_disabled_eq s (by simpa using he)]
      exact ih
  | @stop s hr ih =>
    have hf := stop_fields s
    refine ⟨?_, ?_⟩
    · rw [hf.2.2.2.2.1, hf.2.2.2.2.2.1]
      exact ih.1
    · rw [hf.2.1]
      simp

/-- The state after one `start();stop()` round trip on an enabled crawler;
used as the concrete pre-state of a second `stop()` call. -/
def stoppedOnce : CrawlerState :=
  stop (start (initState true))

/-! ## Claim theorems -/

/-- C1 counterexample: the claim says the batch result has exactly one
outcome per input identifier and its length always equals the input length,
with failures occupying their slot.  On a one-element input whose fetch
times out, `batch_crawl` returns the empty list: the failure is dropped and
the lengths differ. -/
theorem batch_crawl_length_cex :
    batch_crawl (fun _ => NetEvent.timeout) ["u"] = [] ∧
    (["u"] : List String).length = 1 :=
  ⟨rfl, rfl⟩

/-- C1 amended: `batch_crawl` keeps only the successful dict-shaped
results, in input order (it distributes over concatenation of the input
list), and its length is at most — not always equal to — the input length;
failed fetches are dropped rather than occupying their slot. -/
theorem batch_crawl_amended (net : String → NetEvent) (us vs : List String) :
    batch_crawl net (us ++ vs) = batch_crawl net us ++ batch_crawl net vs ∧
    (batch_crawl net us).length ≤ us.length := by
  constructor
  · simp [batch_crawl]
  · calc (batch_crawl net us).length
        ≤ (us.map (fun u => crawl_url u (net u))).length :=
          List.length_filterMap_le _ _
      _ = us.length := List.length_map _ _

/-- C2 counterexample: the claim says calling `start()` twice leaves the
same state as calling it once.  On a fresh enabled crawler the second call
appends three more tasks (six in total) and replaces the session handle, so
the states differ. -/
theorem start_not_idempotent_cex :
    start (start (initState true)) ≠ start (initState true) ∧
    (start (start (initState true))).tasks.length = 6 ∧
    (start (initState true)).tasks.length = 3 :=
  ⟨by decide, by decide, by decide⟩

/-- C2 amended: `start()` is not guarded by the running flag; it returns
immediately only when the enabled flag is false.  When enabled, every call
sets `running`, installs a fresh network session handle (replacing the
previous one), runs the — itself idempotent — storage initialization, and
appends three more scheduler jobs, so two consecutive calls leave six
registered jobs and a second session handle rather than the state of a
single call. -/
theorem start_unguarded_amended (s : CrawlerState) (h : s.enabled = true) :
    (start s).running = true ∧
    (start s).session = some s.nextSession ∧
    (start s).dbInitialized = true ∧
    (start s).tasks.length = s.tasks.length + 3 ∧
    (start (start s)).session = some (s.nextSession + 1) ∧
    (start (start s)).tasks.length = s.tasks.length + 6 := by
  have h1 := start_enabled_eq s h
  have he : (start s).enabled = true := by rw [h1]; exact h
  have h2 := start_enabled_eq (start s) he
  rw [h2, h1]
  simp

/-- Witness for C2 amended, at the fresh enabled crawler. -/
theorem start_unguarded_amended_witness :
    (start (initState true)).running = true ∧
    (start (initState true)).session = some (initState true).nextSession ∧
    (start (initState true)).dbInitialized = true ∧
    (start (initState true)).tasks.length = (initState true).tasks.length + 3 ∧
    (start (start (initState true))).session = some ((initState true).nextSession + 1) ∧
    (start (start (initState true))).tasks.length = (initState true).tasks.length + 6 :=
  start_unguarded_amended (initState true) rfl

/-- C3 counterexample: the claim says both handles are null whenever
`running` is false.  The state reached by `start(); stop()` on an enabled
crawler is reachable, not running, and still holds a non-null session
attribute (the session was closed but never cleared). -/
theorem runstate_invariant_cex :
    Reachable (stop (start (initState true))) ∧
    (stop (start (initState true))).running = false ∧
    (stop (start (initState true))).session ≠ none :=
  ⟨Reachable.stop (Reachable.start (Reachable.init true)), by decide, by decide⟩

/-- C3 amended: in every state reachable through `start()`/`stop()` calls,
a running crawler holds a non-null session and a non-null storage engine;
but a non-running state need not have null handles — after a stop the
closed handles remain set. -/
theorem runstate_invariant_amended {s : CrawlerState} (h : Reachable s)
    (hr : s.running = true) :
    s.session.isSome = true ∧ s.dbEngine.isSome = true :=
  (reachable_handles_aux h).2 hr

/-- Witness for C3 amended: the started crawler is reachable, running, and
holds both handles. -/
theorem runstate_invariant_amended_witness :
    (start (initState true)).session.isSome = true ∧
    (start (initState true)).dbEngine.isSome = true :=
  runstate_invariant_amended (Reachable.start (Reachable.init true)) (by decide)

/-- C8 counterexample: the claim says a second consecutive `stop()` is a
no-op performing no resource release.  After `start(); stop()` on an
enabled crawler the state is not running, yet another `stop()` produces a
different state: it issues close calls on the still-held session and
storage engine again. -/
theorem stop_not_noop_cex :
    stoppedOnce.running = false ∧
    stop stoppedOnce ≠ stoppedOnce ∧
    (stop stoppedOnce).releases =
      stoppedOnce.releases ++ [ReleaseAction.closeSession, ReleaseAction.disposeEngine] :=
  ⟨by decide, by decide, by decide⟩

/-- C8 amended: `stop()` has no running guard.  Called when not running it
leaves `running` false and the handle attributes unchanged and marks every
task done, but it re-invokes close on whichever session and storage handles
are still held (in that order); it is a pure no-op only from a state that
holds no handles, such as a never-started crawler. -/
theorem stop_unguarded_amended (s : CrawlerState) (h : s.running = false) :
    (stop s).running = s.running ∧
    (stop s).session = s.session ∧
    (stop s).dbInitialized = s.dbInitialized ∧
    (stop s).dbEngine = s.dbEngine ∧
    (stop s).tasks = s.tasks.map (fun _ => true) ∧
    (stop s).releases = s.releases ++
      (if s.session.isSome then [ReleaseAction.closeSession] else []) ++
      (if s.dbEngine.isSome then [ReleaseAction.disposeEngine] else []) := by
  have hf := stop_fields s
  exact ⟨by rw [hf.2.1, h], hf.2.2.1, hf.2.2.2.2.1, hf.2.2.2.2.2.1,
    hf.2.2.2.2.2.2.1, hf.2.2.2.2.2.2.2⟩

/-- Witness for C8 amended, at the concrete not-running state reached by
`start(); stop()`. -/
theorem stop_unguarded_amended_witness :
    (stop stoppedOnce).running = stoppedOnce.running ∧
    (stop stoppedOnce).session = stoppedOnce.session ∧
    (stop stoppedOnce).dbInitialized = stoppedOnce.dbInitialized ∧
    (stop stoppedOnce).dbEngine = stoppedOnce.dbEngine ∧
    (stop stoppedOnce).tasks = stoppedOnce.tasks.map (fun _ => true) ∧
    (stop stoppedOnce).releases = stoppedOnce.releases ++
      (if stoppedOnce.session.isSome then [ReleaseAction.closeSession] else []) ++
      (if stoppedOnce.dbEngine.isSome then [ReleaseAction.disposeEngine] else []) :=
  stop_unguarded_amended stoppedOnce (by decide)

/-- C5: `crawl_url` never raises outward — for every outcome of the
underlying network request (response of any status, timeout, connection
failure, malformed JSON body), the guarded function returns a value and
never propagates an exception. -/
theorem crawl_url_never_raises (url : String) (ev : NetEvent) :
    ∃ r : Option PyValue, crawlUrlGuarded url ev = Except.ok r := by
  cases h : crawlUrlBody url ev with
  | ok r => exact ⟨r, by simp [crawlUrlGuarded, h]⟩
  | error e => exact ⟨none, by simp [crawlUrlGuarded, h]⟩

/-- C10: if the enabled configuration flag is false, `start()` returns
immediately with no effect at all: the state — running flag, session,
storage, tasks — is unchanged. -/
theorem start_disabled_noop (s : CrawlerState) (h : s.enabled = false) :
    start s = s :=
  start_disabled_eq s h

/-- Witness for C10 at the concrete fresh disabled crawler. -/
theorem start_disabled_noop_witness :
    start (initState false) = initState false :=
  start_disabled_noop (initState false) rfl

/-- C4 counterexample: the claim says every response with a 2xx status is
decoded according to its content type.  A 201 response with a valid JSON
body and a JSON content type is 2xx, yet `crawl_url` returns `None` (the
failure outcome) because the code compares the status to 200 exactly. -/
theorem crawl_url_2xx_cex :
    (200 ≤ 201 ∧ 201 < 300) ∧
    crawl_url "u"
      (NetEvent.response ⟨201, "application/json", some (Json.obj []), ""⟩) = none :=
  ⟨⟨by decide, by decide⟩, rfl⟩

/-- C4 amended: only a response whose status is exactly 200 is decoded by
declared content type — a JSON content type yields the parsed body (or the
failure outcome when the body is malformed), any other content type yields
the raw text paired with the URL and the status; every other status,
including the remaining 2xx codes, yields the failure outcome `None`. -/
theorem crawl_url_decode_amended (url : String) (r : HttpResponse) :
    (r.status = 200 →
      (declaresJson r.contentType = true →
        crawl_url url (.response r) = r.jsonBody.map PyValue.fromJson) ∧
      (declaresJson r.contentType = false →
        crawl_url url (.response r) =
          some (.contentDict r.textBody url r.status))) ∧
    (r.status ≠ 200 → crawl_url url (.response r) = none) := by
  refine ⟨fun h200 => ⟨fun hj => ?_, fun hj => ?_⟩, fun hne => ?_⟩
  · cases hb : r.jsonBody <;>
      simp [crawl_url, crawlUrlGuarded, crawlUrlBody, h200, hj, hb]
  · simp [crawl_url, crawlUrlGuarded, crawlUrlBody, h200, hj]
  · simp [crawl_url, crawlUrlGuarded, crawlUrlBody, hne]

/-- Witness for C4 amended: a 200 response with a non-JSON content type
returns the raw text paired with the URL and the status. -/
theorem crawl_url_decode_amended_witness :
    crawl_url "u" (NetEvent.response ⟨200, "text/html", none, "hi"⟩) =
      some (PyValue.contentDict "hi" "u" 200) :=
  ((crawl_url_decode_amended "u" ⟨200, "text/html", none, "hi"⟩).1 rfl).2 (by decide)

/-- In every observed run of the periodic wrapper with the running flag
held true, each loop iteration contributes exactly one invocation and one
sleep, whatever the body does. -/
theorem periodic_counts_aux (body : Nat → Except String Unit) (interval : Nat) :
    ∀ n k : Nat,
      invokeCount (periodicTrace (fun _ => true) body interval k n) = n ∧
      sleepCount (periodicTrace (fun _ => true) body interval k n) = n := by
  intro n
  induction n with
  | zero => intro k; simp [periodicTrace, invokeCount, sleepCount]
  | succ n ih =>
    intro k
    have h := ih (k + 1)
    cases hb : body k <;>
      simp [periodicTrace, invokeCount, sleepCount, hb, List.countP_append,
        List.countP_cons] at h ⊢ <;> omega

/-- C6: failure isolation of the periodic wrapper — with a body that raises
on every invocation, the scheduler catches and logs each error and proceeds
to the sleep-then-repeat cycle: over any number `n` of observed cycles
there are exactly `n` invocations and `n` sleeps, so the failing body is
re-invoked after each interval and never halts the loop.  (Each wrapper
task references only its own body, so a failing body cannot affect any
other job.) -/
theorem periodic_failure_isolation (body : Nat → Except String Unit)
    (interval n : Nat) (hfail : ∀ k, ∃ e, body k = Except.error e) :
    invokeCount (periodicTrace (fun _ => true) body interval 0 n) = n ∧
    sleepCount (periodicTrace (fun _ => true) body interval 0 n) = n :=
  periodic_counts_aux body interval n 0

/-- Witness for C6: an always-failing body observed for three cycles is
invoked three times and sleeps three times. -/
theorem periodic_failure_isolation_witness :
    invokeCount (periodicTrace (fun _ => true) (fun _ => Except.error "boom") 5 0 3) = 3 ∧
    sleepCount (periodicTrace (fun _ => true) (fun _ => Except.error "boom") 5 0 3) = 3 :=
  periodic_failure_isolation (fun _ => Except.error "boom") 5 3 (fun _ => ⟨"boom", rfl⟩)

/-- C7: the first event of any run of the periodic wrapper is the
invocation of the body — there is no initial wait — and the first sleep
occurs strictly after that invocation, with only the logging of a body
error possibly in between. -/
theorem periodic_first_invoke_immediate (running : Nat → Bool)
    (body : Nat → Except String Unit) (interval n : Nat) (h : running 0 = true) :
    (periodicTrace running body interval 0 (n + 1)).head? =
        some (SchedEvent.invoke 0) ∧
    ∃ errs rest,
      periodicTrace running body interval 0 (n + 1) =
        SchedEvent.invoke 0 :: (errs ++ SchedEvent.sleep interval :: rest) ∧
      ∀ e ∈ errs, e = SchedEvent.bodyError 0 := by
  cases hb : body 0 with
  | ok u =>
    refine ⟨by simp [periodicTrace, h, hb], [], periodicTrace running body interval 1 n,
      by simp [periodicTrace, h, hb], by simp⟩
  | error e =>
    refine ⟨by simp [periodicTrace, h, hb], [SchedEvent.bodyError 0],
      periodicTrace running body interval 1 n,
      by simp [periodicTrace, h, hb], by simp⟩

/-- Witness for C7: one observed cycle of a trivial job starts with the
invocation of the body. -/
theorem periodic_first_invoke_immediate_witness :
    (periodicTrace (fun _ => true) (fun _ => Except.ok ()) 7 0 1).head? =
      some (SchedEvent.invoke 0) :=
  (periodic_first_invoke_immediate (fun _ => true) (fun _ => Except.ok ()) 7 0 rfl).1

/-- Semaphore bookkeeping of `batch_crawl`: in every reachable state the
fetches in flight and the remaining permits sum to the concurrency limit. -/
theorem batchReachable_inflight_add_permits {k n : Nat} {s : BatchState}
    (h : BatchReachable k n s) : s.inflight + s.permits = k := by
  induction h with
  | init => simp [batchInit]
  | step hr hstep ih => cases hstep <;> simp_all <;> omega

/-- C9: for every concurrency limit `k ≥ 1` and every number `n` of input
identifiers, in every state reachable under any interleaving of the tasks
of one `batch_crawl` call, at most `k` fetches are in flight
simultaneously. -/
theorem batch_concurrency_bound {k n : Nat} {s : BatchState}
    (hk : 1 ≤ k) (h : BatchReachable k n s) : s.inflight ≤ k := by
  have := batchReachable_inflight_add_permits h
  omega

/-- Witness for C9: with limit 2 and 3 identifiers, the state reached
after one task acquires the semaphore has at most 2 fetches in flight. -/
theorem batch_concurrency_bound_witness :
    (⟨2, 1, 1, 0⟩ : BatchState).inflight ≤ 2 :=
  batch_concurrency_bound (by decide)
    (BatchReachable.step (BatchReachable.init (k := 2) (n := 3))
      (BatchStep.acquire 2 0 1 0))

end DataCrawler
